import Mathlib

/-!
Verification of the bosh-agent action layer and ubuntu platform helpers.

The Go source is shallowly embedded: pure computations become Lean
functions, collaborator calls (compiler, file system, command runner,
copier, compressor, blobstore) become explicit parameters carrying the
collaborator's outcome, and side effects become explicit effect traces.
Machine integers (uint64) are Nat with reduction modulo 2 ^ 64 where the
Go arithmetic can overflow.
-/

/-- Go `map[string]interface{}` values as they occur in action results:
nested string-keyed objects with string leaves. -/
inductive JsonVal where
  | str (s : String)
  | obj (fields : List (String × JsonVal))

/-- Request payload of the compile-package action
(src/unnamed/part_002, `CompilePackageWithSignedURLRequest`). The digest
and dependency fields only feed the external compiler, so they are kept
as opaque strings/pairs. -/
structure CompilePackageWithSignedURLRequest where
  packageGetSignedURL : String
  uploadSignedURL : String
  digest : String
  name : String
  version : String
  deps : List (String × String)

/-- `CompilePackageWithSignedURL.Run` (src/unnamed/part_002 lines 32-67).
The external compiler call `a.compiler.Compile(pkg, modelsDeps)` is
passed in as its outcome: `Except.ok uploadedDigest` (the digest's
`String()` rendering) or `Except.error msg`. On error the Go code
returns an empty map and `bosherr.WrapErrorf(err, "Compiling package %s",
pkg.Name)`, whose message is "Compiling package NAME: MSG"; on success it
returns the nested result map and a nil error (modelled as `none`). -/
def CompilePackageWithSignedURL.Run (request : CompilePackageWithSignedURLRequest)
    (compileOutcome : Except String String) : JsonVal × Option String :=
  match compileOutcome with
  | Except.error e =>
      (JsonVal.obj [], some ("Compiling package " ++ request.name ++ ": " ++ e))
  | Except.ok uploadedDigest =>
      (JsonVal.obj [("result", JsonVal.obj [("sha1", JsonVal.str uploadedDigest)])], none)

/-- Go `ProtocolVersion` is an integer type. -/
def ProtocolVersion := Int

/-- `CompilePackageWithSignedURL.Resume` (src/unnamed/part_002 lines 69-71):
returns `nil, errors.New("not supported")`. -/
def CompilePackageWithSignedURL.Resume : Option JsonVal × Option String :=
  (none, some "not supported")

/-- `CompilePackageWithSignedURL.Cancel` (src/unnamed/part_002 lines 73-75). -/
def CompilePackageWithSignedURL.Cancel : Option String :=
  some "not supported"

/-- `CompilePackageWithSignedURL.IsAsynchronous` (src/unnamed/part_002 lines 77-79). -/
def CompilePackageWithSignedURL.IsAsynchronous (_ : ProtocolVersion) : Bool :=
  true

/-- `CompilePackageWithSignedURL.IsPersistent` (src/unnamed/part_002 lines 81-83). -/
def CompilePackageWithSignedURL.IsPersistent : Bool :=
  false

/-- `CompilePackageWithSignedURL.IsLoggable` (src/unnamed/part_002 lines 85-87). -/
def CompilePackageWithSignedURL.IsLoggable : Bool :=
  true

/-- `FetchLogsAction.IsAsynchronous` (src/agent/action/fetch_logs.go lines 32-34). -/
def FetchLogsAction.IsAsynchronous (_ : ProtocolVersion) : Bool :=
  true

/-- `FetchLogsAction.IsPersistent` (src/agent/action/fetch_logs.go lines 36-38). -/
def FetchLogsAction.IsPersistent : Bool :=
  false

/-- `FetchLogsAction.IsLoggable` (src/agent/action/fetch_logs.go lines 40-42). -/
def FetchLogsAction.IsLoggable : Bool :=
  true

/-- `FetchLogsAction.Resume` (src/agent/action/fetch_logs.go lines 91-93). -/
def FetchLogsAction.Resume : Option JsonVal × Option String :=
  (none, some "not supported")

/-- `FetchLogsAction.Cancel` (src/agent/action/fetch_logs.go lines 95-97). -/
def FetchLogsAction.Cancel : Option String :=
  some "not supported"

/-- C1: CompilePackageWithSignedURL.Run yields exactly one of a result value
or a failure: on compiler success the value is `{"result": {"sha1": digest}}`
with no error, and on compiler failure the value is the empty map with an
error whose message wraps the compiler's error as "Compiling package NAME";
never both a non-empty value and an error. -/
theorem compile_package_run_result_xor_error
    (request : CompilePackageWithSignedURLRequest)
    (compileOutcome : Except String String) :
    (∃ d, compileOutcome = Except.ok d ∧
        CompilePackageWithSignedURL.Run request compileOutcome =
          (JsonVal.obj [("result", JsonVal.obj [("sha1", JsonVal.str d)])], none)) ∨
    (∃ e, compileOutcome = Except.error e ∧
        CompilePackageWithSignedURL.Run request compileOutcome =
          (JsonVal.obj [], some ("Compiling package " ++ request.name ++ ": " ++ e))) := by
  cases compileOutcome with
  | ok d => exact Or.inl ⟨d, rfl, rfl⟩
  | error e => exact Or.inr ⟨e, rfl, rfl⟩

/-- C3: the asynchronous capability is a predicate over the protocol version
and holds universally for the compile-package and fetch-logs actions: for
every protocol version these requests must run in the background. -/
theorem actions_always_asynchronous (v : ProtocolVersion) :
    CompilePackageWithSignedURL.IsAsynchronous v = true ∧
    FetchLogsAction.IsAsynchronous v = true :=
  ⟨rfl, rfl⟩

/-- C4: the cancellation hooks of the compile-package and fetch-logs actions
always fail with an error whose message is "not supported". -/
theorem actions_cancel_not_supported :
    CompilePackageWithSignedURL.Cancel = some "not supported" ∧
    FetchLogsAction.Cancel = some "not supported" :=
  ⟨rfl, rfl⟩

/-- C5: the resume hooks of the compile-package and fetch-logs actions always
return a nil value together with an error whose message is "not supported",
so a previously-started invocation can never be re-attached to. -/
theorem actions_resume_not_supported :
    CompilePackageWithSignedURL.Resume = (none, some "not supported") ∧
    FetchLogsAction.Resume = (none, some "not supported") :=
  ⟨rfl, rfl⟩

/-- C6: the persistent capability of the compile-package and fetch-logs
actions is always false: no durable task-store record is required. -/
theorem actions_not_persistent :
    CompilePackageWithSignedURL.IsPersistent = false ∧
    FetchLogsAction.IsPersistent = false :=
  ⟨rfl, rfl⟩

/-- C7: the loggable capability of the compile-package and fetch-logs actions
is always true: their arguments and results may appear in diagnostic logs. -/
theorem actions_loggable :
    CompilePackageWithSignedURL.IsLoggable = true ∧
    FetchLogsAction.IsLoggable = true :=
  ⟨rfl, rfl⟩

/-- `ubuntu.calculateEphemeralDiskPartitionSizes` (src/unnamed/part_000
lines 209-232). Inputs are the two collaborator results the Go code reads:
`memStats.Total` (total memory in kilobytes) and
`partitioner.GetDeviceSizeInBlocks` (device size in 512-byte blocks); both
are uint64, so the product `totalMemInKb * 1024` is reduced modulo 2 ^ 64.
`linuxSize = diskSizeInBlocks - swapSize` never underflows because
`swapSize ≤ diskSizeInBlocks`, so Nat subtraction matches uint64
subtraction. Returns `(swapSize, linuxSize)`. -/
def ubuntu.calculateEphemeralDiskPartitionSizes
    (diskSizeInBlocks totalMemInKb : Nat) : Nat × Nat :=
  let blockSizeInBytes := 512
  let totalMemInBlocks := totalMemInKb * 1024 % 2 ^ 64 / blockSizeInBytes
  let swapSize :=
    if totalMemInBlocks > diskSizeInBlocks / 2 then diskSizeInBlocks / 2
    else totalMemInBlocks
  (swapSize, diskSizeInBlocks - swapSize)

/-- The sizing exactly as C8 words it: `swapSize` compares the EXACT value
`M * 1024 / 512` (no modular reduction) against `D / 2`. Stated from the
claim's words only, to be compared against the embedding of the code. -/
def claimedEphemeralDiskPartitionSizes (diskSizeInBlocks totalMemInKb : Nat) : Nat × Nat :=
  let totalMemInBlocks := totalMemInKb * 1024 / 512
  let swapSize :=
    if totalMemInBlocks > diskSizeInBlocks / 2 then diskSizeInBlocks / 2
    else totalMemInBlocks
  (swapSize, diskSizeInBlocks - swapSize)

/-- C8 counterexample: at a device of 4 blocks and a memory total of
2 ^ 54 kilobytes, the Go code computes `M * 1024` in uint64, which wraps to
0, giving swapSize = 0; the claim's exact arithmetic gives
`M * 1024 / 512 = 2 ^ 55 > 2 = D / 2`, hence swapSize = 2. -/
theorem calculate_partition_sizes_claim_counterexample :
    ubuntu.calculateEphemeralDiskPartitionSizes 4 (2 ^ 54) ≠
      claimedEphemeralDiskPartitionSizes 4 (2 ^ 54) := by
  decide

/-- C8 (amended): for every device of D blocks and memory total of M
kilobytes, with `t = M * 1024 % 2 ^ 64 / 512` (the uint64 computation the
code performs), swapSize = D / 2 if t > D / 2 and swapSize = t otherwise;
linuxSize = D - swapSize; and swapSize + linuxSize = D and swapSize ≤ D
always hold. -/
theorem calculate_partition_sizes_spec (d m : Nat) :
    (ubuntu.calculateEphemeralDiskPartitionSizes d m).1 =
      (if m * 1024 % 2 ^ 64 / 512 > d / 2 then d / 2 else m * 1024 % 2 ^ 64 / 512) ∧
    (ubuntu.calculateEphemeralDiskPartitionSizes d m).2 =
      d - (ubuntu.calculateEphemeralDiskPartitionSizes d m).1 ∧
    (ubuntu.calculateEphemeralDiskPartitionSizes d m).1 +
      (ubuntu.calculateEphemeralDiskPartitionSizes d m).2 = d ∧
    (ubuntu.calculateEphemeralDiskPartitionSizes d m).1 ≤ d := by
  unfold ubuntu.calculateEphemeralDiskPartitionSizes
  have hle : (if m * 1024 % 2 ^ 64 / 512 > d / 2 then d / 2
      else m * 1024 % 2 ^ 64 / 512) ≤ d := by
    split
    · exact Nat.div_le_self d 2
    · next h =>
        exact le_trans (Nat.le_of_not_lt h) (Nat.div_le_self d 2)
  refine ⟨rfl, rfl, ?_, hle⟩
  simpa using Nat.add_sub_cancel' hle

/-- Calls FetchLogsAction.Run makes on its collaborators, in order. -/
inductive LogsEffect where
  | filteredCopyToTemp (dir : String) (filters : List String)
  | copierCleanUp (tmpDir : String)
  | compressFilesInDir (tmpDir : String)
  | compressorCleanUp (tarball : String)
  | blobstoreWrite (tarball : String)
  deriving DecidableEq

/-- Collaborator state of FetchLogsAction: the two settings directories and
the outcomes of the copier, compressor and blobstore calls. `blobResult`
carries `(blobID, multidigestSha.String())` on success. -/
structure FetchLogsEnv where
  logsDir : String
  agentLogsDir : String
  copyResult : Except String String
  compressResult : Except String String
  blobResult : Except String (String × String)

/-- `FetchLogsAction.Run` (src/agent/action/fetch_logs.go lines 44-89).
The switch on `logType` picks the directory and defaults empty filters to
`["**/*"]`; the default case returns `bosherr.Error("Invalid log type")`
with a nil value before any collaborator is touched. The two `defer`ed
clean-ups run in LIFO order when the function returns after their
registration point. Returns `(value, error, effect trace)`. -/
def FetchLogsAction.Run (env : FetchLogsEnv) (logType : String)
    (filters : List String) :
    Option (List (String × String)) × Option String × List LogsEffect :=
  let body : String → Option (List (String × String)) × Option String × List LogsEffect :=
    fun logsDir =>
      let filters := if filters = [] then ["**/*"] else filters
      match env.copyResult with
      | Except.error e =>
          (none, some ("Copying filtered files to temp directory: " ++ e),
            [LogsEffect.filteredCopyToTemp logsDir filters])
      | Except.ok tmpDir =>
          match env.compressResult with
          | Except.error e =>
              (none, some ("Making logs tarball: " ++ e),
                [LogsEffect.filteredCopyToTemp logsDir filters,
                 LogsEffect.compressFilesInDir tmpDir,
                 LogsEffect.copierCleanUp tmpDir])
          | Except.ok tarball =>
              match env.blobResult with
              | Except.error e =>
                  (none, some ("Create file on blobstore: " ++ e),
                    [LogsEffect.filteredCopyToTemp logsDir filters,
                     LogsEffect.compressFilesInDir tmpDir,
                     LogsEffect.blobstoreWrite tarball,
                     LogsEffect.compressorCleanUp tarball,
                     LogsEffect.copierCleanUp tmpDir])
              | Except.ok (blobID, sha) =>
                  (some [("blobstore_id", blobID), ("sha1", sha)], none,
                    [LogsEffect.filteredCopyToTemp logsDir filters,
                     LogsEffect.compressFilesInDir tmpDir,
                     LogsEffect.blobstoreWrite tarball,
                     LogsEffect.compressorCleanUp tarball,
                     LogsEffect.copierCleanUp tmpDir])
  if logType = "job" then body env.logsDir
  else if logType = "agent" then body env.agentLogsDir
  else (none, some "Invalid log type", [])

/-- C9: for every log type other than "job" and "agent" and every filter
list, FetchLogsAction.Run returns a nil value and the error
"Invalid log type" with an empty effect trace: no file copy, tarball
creation or blobstore write is performed. -/
theorem fetch_logs_invalid_log_type (env : FetchLogsEnv) (logType : String)
    (filters : List String) (hjob : logType ≠ "job") (hagent : logType ≠ "agent") :
    FetchLogsAction.Run env logType filters = (none, some "Invalid log type", []) := by
  unfold FetchLogsAction.Run
  simp [hjob, hagent]

/-- C9 witness: the concrete log type "ssh" is rejected without effects. -/
theorem fetch_logs_invalid_log_type_witness :
    FetchLogsAction.Run
        ⟨"/var/vcap/sys/log", "/var/vcap/bosh/log",
          Except.ok "/tmp/d", Except.ok "/tmp/t.tgz", Except.ok ("b", "s")⟩
        "ssh" [] = (none, some "Invalid log type", []) :=
  fetch_logs_invalid_log_type _ "ssh" [] (by decide) (by decide)

/-- The static part of `DHCP_CONFIG_TEMPLATE` (src/unnamed/part_000 lines
107-120): everything the Go text/template emits before the range over
`.DnsServers`. -/
def DHCP_CONFIG_STATIC : String :=
  "# Generated by bosh-agent\n\noption rfc3442-classless-static-routes code 121 = array of unsigned integer 8;\n\nsend host-name \"<hostname>\";\n\nrequest subnet-mask, broadcast-address, time-offset, routers,\n\tdomain-name, domain-name-servers, domain-search, host-name,\n\tnetbios-name-servers, netbios-scope, interface-mtu,\n\trfc3442-classless-static-routes, ntp-servers;\n\n"

/-- Rendering of `DHCP_CONFIG_TEMPLATE` for a given `DnsServers` list: the
range body emits one "prepend domain-name-servers S;\n" line per server,
in list order; the `Execute` call cannot fail on this template. -/
def renderDhcpConfig (dnsServers : List String) : String :=
  DHCP_CONFIG_STATIC ++
    String.join (dnsServers.map (fun s => "prepend domain-name-servers " ++ s ++ ";\n"))

/-- Side effects of ubuntu.SetupDhcp: the config write and the commands
handed to the command runner. -/
inductive DhcpEffect where
  | writeToFile (path content : String)
  | runCommand (cmd : List String)
  deriving DecidableEq

/-- `ubuntu.SetupDhcp` (src/unnamed/part_000 lines 71-104). The
`networks.DefaultNetworkFor("dns")` collaborator call is passed in as its
outcome: `some dns` when a default dns network with server list `dns` is
found, else `none`. The Go loop walks `dnsNetwork.Dns` from the last index
down to 0 appending each entry, i.e. it builds the reversed list.
`fs.WriteToFile` is passed in as its outcome `(written, err)`; the two
commands run only when `written` is true (write errors return early).
Returns `(error, effect trace)`. -/
def ubuntu.SetupDhcp (dnsNetwork : Option (List String))
    (writeResult : Except String Bool) : Option String × List DhcpEffect :=
  let dnsServers := match dnsNetwork with
    | none => []
    | some dns => dns.reverse
  let content := renderDhcpConfig dnsServers
  match writeResult with
  | Except.error e =>
      (some e, [DhcpEffect.writeToFile "/etc/dhcp3/dhclient.conf" content])
  | Except.ok written =>
      (none,
        DhcpEffect.writeToFile "/etc/dhcp3/dhclient.conf" content ::
          (if written then
            [DhcpEffect.runCommand ["pkill", "dhclient3"],
             DhcpEffect.runCommand ["/etc/init.d/networking", "restart"]]
          else []))

/-- C10: for every default dns network with server list `dns` and every
write outcome `w`, SetupDhcp writes /etc/dhcp3/dhclient.conf with one
prepend line per server in REVERSE of the configured order, and runs
"pkill dhclient3" followed by "/etc/init.d/networking restart" if and only
if the write reported the contents changed (`w = true`); a no-op write
runs no command. -/
theorem setup_dhcp_renders_reversed_and_restarts_iff_changed
    (dns : List String) (w : Bool) :
    ubuntu.SetupDhcp (some dns) (Except.ok w) =
      (none,
        DhcpEffect.writeToFile "/etc/dhcp3/dhclient.conf"
            (DHCP_CONFIG_STATIC ++
              String.join (dns.reverse.map
                (fun s => "prepend domain-name-servers " ++ s ++ ";\n"))) ::
          (if w then
            [DhcpEffect.runCommand ["pkill", "dhclient3"],
             DhcpEffect.runCommand ["/etc/init.d/networking", "restart"]]
          else [])) :=
  rfl

/-- Task lifecycle states (spec section 3). -/
inductive TaskState where
  | running
  | done
  | failed
  | cancelled
  deriving DecidableEq

/-- The terminal states are Done, Failed and Cancelled. -/
def TaskState.isTerminal : TaskState → Bool
  | TaskState.running => false
  | _ => true

/-- The runtime record of one Action invocation: state, value (present
only in Done) and error (present only in Failed). -/
structure TaskRecord where
  state : TaskState
  value : Option String
  error : Option String
  deriving DecidableEq

/-- Modelled from the spec: the Task Manager's source is not among the
sampled files, so the operations it applies to a task record come from
spec sections 3-4: completion transitions to Done (with a value), Failed
(with an error) or Cancelled, driven by the owning execution thread, and
the cooperative cancel signal, which does not mutate state directly. -/
inductive TaskOp where
  | completeDone (v : String)
  | completeFailed (e : String)
  | completeCancelled
  | cancelSignal

/-- Modelled from the spec: applying one operation to a task record.
Last-transition-wins with no retroactive overwrite of a terminal state
(spec section 4.3), so a terminal record is left untouched; a cancel
signal never mutates state directly (spec section 3). -/
def TaskManager.applyOp (t : TaskRecord) (op : TaskOp) : TaskRecord :=
  if t.state.isTerminal then t
  else
    match op with
    | TaskOp.completeDone v => { state := TaskState.done, value := some v, error := none }
    | TaskOp.completeFailed e => { state := TaskState.failed, value := none, error := some e }
    | TaskOp.completeCancelled => { state := TaskState.cancelled, value := none, error := none }
    | TaskOp.cancelSignal => t

/-- C2: once a Task reaches Done, Failed or Cancelled, no subsequent
sequence of operations changes its state, its value or its error. -/
theorem task_terminal_immutable (t : TaskRecord) (ops : List TaskOp)
    (h : t.state.isTerminal = true) :
    List.foldl TaskManager.applyOp t ops = t := by
  induction ops with
  | nil => rfl
  | cons op ops ih => simpa [List.foldl, TaskManager.applyOp, h] using ih

/-- C2 witness: a Done task with a value survives a cancel signal followed
by a completion attempt unchanged. -/
theorem task_terminal_immutable_witness :
    TaskState.isTerminal (TaskRecord.mk TaskState.done (some "v") none).state = true ∧
    List.foldl TaskManager.applyOp (TaskRecord.mk TaskState.done (some "v") none)
        [TaskOp.cancelSignal, TaskOp.completeFailed "boom"] =
      TaskRecord.mk TaskState.done (some "v") none :=
  ⟨rfl, task_terminal_immutable (TaskRecord.mk TaskState.done (some "v") none)
    [TaskOp.cancelSignal, TaskOp.completeFailed "boom"] rfl⟩
